import Mathlib

/-!
# Verification of the clawtop live-monitoring engine

Shallow embedding of the dashboard utility (`clawtop`): the metric deriver
`calculateCpuUsage`, the ranker `sortSessions`, the keypress-driven interaction
state machine, the render pipeline's branch selection, and the main loop's
per-tick behaviour, together with theorems settling the specification claims.

Modelling conventions:
* JavaScript numbers are modelled as `ℚ` where division occurs (the activity
  score, elapsed milliseconds) and as `Nat` for counters and timestamps.
* Fields read through `x || 0` (resp. `x || ''`) in the source collapse a
  missing field and the falsy value `0` (resp. `""`); such fields are modelled
  as plain `Nat`/`String` with `0`/`""` standing for "absent", except `_cpu`,
  which is attached only inside the loop and is therefore an `Option ℚ`.
* Fallible JavaScript evaluation is `Except JsError`; a `ReferenceError` is
  raised when an identifier is resolved against a scope that does not bind it.
* Terminal side effects (raw-mode switching, writes, `process.exit`) are
  reified as an `Effect` trace.
-/

/-- One session entry as consumed by the dashboard: identity key, display
label, last-activity timestamp (epoch ms), cumulative token counter, channel
label, and the `_cpu` score attached by the loop (absent on freshly fetched
entries). -/
structure Session where
  key : String
  displayName : String
  updatedAt : Nat
  totalTokens : Nat
  channel : String
  cpu : Option ℚ := none
deriving DecidableEq, Repr

/-- The mutable part of `CONFIG` (source lines 34-42) that the key handler and
CLI parsing touch. `iterations = none` models `Infinity` (unbounded). -/
structure Config where
  delay : Nat := 2
  iterations : Option Nat := none
  sortBy : String := "cpu"
  reverse : Bool := false
  maxSessions : Nat := 20
  showSystem : Bool := true
deriving DecidableEq, Repr

/-- Which setting an `awaitingInput` prompt targets (source line 48). -/
inductive InputTarget
  | delay
  | iterations
deriving DecidableEq, Repr

/-- The module-level UI state mutated only by the keypress handler:
`paused`, `showingHelp`, `inputBuffer`, `awaitingInput` (source lines 45-48). -/
structure UIState where
  paused : Bool := false
  showingHelp : Bool := false
  inputBuffer : String := ""
  awaitingInput : Option InputTarget := none
deriving DecidableEq, Repr

/-- JavaScript `a || b` on strings: only `""` is falsy. -/
def jsStrOr (a b : String) : String :=
  if a = "" then b else a

/-- `s._cpu || 0` (a missing `_cpu` and `_cpu === 0` both read as `0`). -/
def cpuOf (s : Session) : ℚ :=
  s.cpu.getD 0

/-- The case-insensitive name sort key:
`(a.displayName || a.key || '').toLowerCase()` (source lines 332-333). -/
def nameKey (s : Session) : String :=
  (jsStrOr s.displayName (jsStrOr s.key "")).toLower

/-- The metric deriver (source lines 303-311): returns `0` when either sample
is absent or fewer than 500 ms elapsed or the counter did not strictly
increase; otherwise the per-second token delta clamped above at `100`. -/
def calculateCpuUsage (session prevSession : Option Session) (elapsedMs : ℚ) : ℚ :=
  match session, prevSession with
  | some s, some p =>
    if elapsedMs < 500 then 0
    else
      let currTokens : ℚ := s.totalTokens
      let prevTokens : ℚ := p.totalTokens
      let diff := currTokens - prevTokens
      if diff ≤ 0 then 0
      else min 100 (diff / (elapsedMs / 1000))
  | _, _ => 0

/-- The comparator of `sortSessions` (source lines 314-343), expressed as
"comparator result ≤ 0": the JavaScript `switch` selects the compared value
per field (`_cpu`, `totalTokens`, `updatedAt`, lowercased name; unknown field
falls back to `_cpu`), and `reverse` swaps the operands. -/
def sortLe (sortBy : String) (reverse : Bool) (a b : Session) : Bool :=
  if sortBy = "cpu" then
    if reverse then cpuOf b ≤ cpuOf a else cpuOf a ≤ cpuOf b
  else if sortBy = "mem" ∨ sortBy = "tokens" then
    if reverse then b.totalTokens ≤ a.totalTokens else a.totalTokens ≤ b.totalTokens
  else if sortBy = "idle" then
    if reverse then b.updatedAt ≤ a.updatedAt else a.updatedAt ≤ b.updatedAt
  else if sortBy = "name" then
    if reverse then nameKey b ≤ nameKey a else nameKey a ≤ nameKey b
  else
    if reverse then cpuOf b ≤ cpuOf a else cpuOf a ≤ cpuOf b

/-- Equality of the values the comparator of `sortSessions` extracts for the
given field (ties of the sort). -/
def sortValEq (sortBy : String) (a b : Session) : Bool :=
  if sortBy = "cpu" then cpuOf a = cpuOf b
  else if sortBy = "mem" ∨ sortBy = "tokens" then a.totalTokens = b.totalTokens
  else if sortBy = "idle" then a.updatedAt = b.updatedAt
  else if sortBy = "name" then nameKey a = nameKey b
  else cpuOf a = cpuOf b

/-- The ranker (source lines 313-347): `[...sessions].sort(comparator)`.
`Array.prototype.sort` is specified stable, and for the total, transitive
comparators used here the stable sorted permutation is unique, so the sort is
modelled by stable insertion sort over the comparator's "≤ 0" relation. -/
def sortSessions (sessions : List Session) (sortBy : String) (reverse : Bool) : List Session :=
  sessions.insertionSort (fun a b => sortLe sortBy reverse a b = true)

/-- JavaScript `parseInt` restricted to the sign-free numeral strings that can
occur as input buffers (the handler appends only digit characters): the
longest leading digit prefix, `none` when there is none (`parseInt` = `NaN`). -/
def parseIntJS (s : String) : Option Nat :=
  let ds := s.toList.takeWhile Char.isDigit
  if ds = [] then none
  else some (ds.foldl (fun acc c => acc * 10 + (c.toNat - 48)) 0)

/-- A JavaScript runtime error; the only one the core can raise is resolving
an identifier that is not bound in scope. -/
inductive JsError
  | referenceError (ident : String)
deriving DecidableEq, Repr

/-- The identifiers in scope inside `render` at the error branch (source line
432): `render`'s parameters and the `const`s declared before that line, plus
every module-level binding of the file. `main`'s local `const config` (line
518) is *not* among them. -/
def renderScope : List String :=
  ["sysInfo", "gwUptime", "sessionCount", "sessions", "error", "delay",
   "width", "statusLine", "sortIndicator",
   "http", "https", "execSync", "fs", "path", "fileURLToPath", "readline",
   "os", "__filename", "__dirname", "CONFIG", "paused", "showingHelp",
   "inputBuffer", "awaitingInput", "isWindows", "noColor", "C",
   "getGatewayConfig", "formatBytes", "formatDuration", "formatNumber",
   "getSystemInfo", "lastCpuInfo", "getCpuUsage", "getGatewayUptime",
   "fetchSessions", "checkGatewayHealth", "calculateCpuUsage", "sortSessions",
   "clearScreen", "moveToTop", "render", "main"]

/-- The content of one rendered terminal frame, abstracted from string
layout: the help overlay, an input prompt with the live buffer, the error
banner (reachable only if `config` resolved), or the session table (an empty
`rows` list renders as "No active sessions"). -/
inductive Frame
  | help
  | prompt (target : InputTarget) (buffer : String)
  | errorBanner (message : String)
  | table (paused : Bool) (sessionCount : Nat) (rows : List Session)
deriving DecidableEq, Repr

/-- The render pipeline's branch selection (source lines 357-470): help
overlay first, then the two input prompts, then — for an error tick — the
error banner, whose second line interpolates `config.host`/`config.port`
(line 432); `config` must be resolved in `render`'s scope, and failing that
resolution raises a `ReferenceError`. Otherwise the session table. -/
def render (ui : UIState) (sessionCount : Nat) (sessions : List Session)
    (error : Option String) : Except JsError Frame :=
  if ui.showingHelp then .ok .help
  else if ui.awaitingInput = some .delay then .ok (.prompt .delay ui.inputBuffer)
  else if ui.awaitingInput = some .iterations then .ok (.prompt .iterations ui.inputBuffer)
  else
    match error with
    | some msg =>
      if renderScope.contains "config" then .ok (.errorBanner msg)
      else .error (.referenceError "config")
    | none => .ok (.table ui.paused sessionCount sessions)

/-- Observable terminal/process side effects of the core. -/
inductive Effect
  | writeLine (s : String)
  | setRawMode (enabled : Bool)
  | exit (code : Nat)
deriving DecidableEq, Repr

/-- A readline keypress event: `key.name` (lowercase for letters, named keys
like "space", "return", "escape", "backspace"), `key.ctrl`, and the produced
character `str` when it is a single character. -/
structure KeyEvent where
  name : Option String := none
  ctrl : Bool := false
  str : Option Char := none
deriving DecidableEq, Repr

/-- The fixed cyclic sort-field order used by the `s` key (source lines
581-583): `fields[(fields.indexOf(sortBy) + 1) % fields.length]`, where a
field not in the list has index `-1` and so advances to `cpu`. -/
def nextSortField (sortBy : String) : String :=
  let fields := ["cpu", "mem", "idle", "tokens", "name"]
  match fields.findIdx? (· = sortBy) with
  | some i => fields.getD ((i + 1) % fields.length) ""
  | none => fields.getD 0 ""

/-- The keypress handler (source lines 529-593). Branch order as in the
source: `h` toggles help only when no input is awaited; any key closes an
open help overlay; in input-awaiting mode Escape discards, Enter validates
and applies (delay: integer in (0, 3600]; iterations: any parsed integer,
`0` meaning unbounded), Backspace drops the last buffered character and a
digit character is appended; otherwise the normal shortcuts run, where
`q`/Ctrl-C prints a farewell and exits. Returns the new config, the new UI
state, and the emitted effects. -/
def handleKeypress (cfg : Config) (ui : UIState) (k : KeyEvent) :
    Config × UIState × List Effect :=
  if k.name = some "h" ∧ ui.awaitingInput = none then
    (cfg, { ui with showingHelp := !ui.showingHelp }, [])
  else if ui.showingHelp then
    (cfg, { ui with showingHelp := false }, [])
  else
    match ui.awaitingInput with
    | some target =>
      if k.name = some "escape" then
        (cfg, { ui with awaitingInput := none, inputBuffer := "" }, [])
      else if k.name = some "return" ∨ k.name = some "enter" then
        let cfg' :=
          match target with
          | .delay =>
            match parseIntJS ui.inputBuffer with
            | some newDelay =>
              if 0 < newDelay ∧ newDelay ≤ 3600 then { cfg with delay := newDelay } else cfg
            | none => cfg
          | .iterations =>
            match parseIntJS ui.inputBuffer with
            | some newIter =>
              { cfg with iterations := if newIter = 0 then none else some newIter }
            | none => cfg
        (cfg', { ui with awaitingInput := none, inputBuffer := "" }, [])
      else if k.name = some "backspace" then
        (cfg, { ui with inputBuffer := ui.inputBuffer.dropRight 1 }, [])
      else
        match k.str with
        | some c =>
          if c.isDigit then (cfg, { ui with inputBuffer := ui.inputBuffer.push c }, [])
          else (cfg, ui, [])
        | none => (cfg, ui, [])
    | none =>
      if k.name = some "q" ∨ (k.ctrl ∧ k.name = some "c") then
        (cfg, ui, [.writeLine "Goodbye!", .exit 0])
      else if k.name = some "space" then
        (cfg, { ui with paused := !ui.paused }, [])
      else if k.name = some "r" then
        ({ cfg with reverse := !cfg.reverse }, ui, [])
      else if k.name = some "s" then
        ({ cfg with sortBy := nextSortField cfg.sortBy }, ui, [])
      else if k.name = some "d" then
        (cfg, { ui with awaitingInput := some .delay, inputBuffer := "" }, [])
      else if k.name = some "n" then
        (cfg, { ui with awaitingInput := some .iterations, inputBuffer := "" }, [])
      else
        (cfg, ui, [])

/-- The loop-owned mutable state of `main` (source lines 519-521): the
iteration counter, the previous-sample cache, and the shared `CONFIG` and UI
flags the handler mutates. -/
structure LoopState where
  cfg : Config := {}
  ui : UIState := {}
  iterations : Nat := 0
  prevSessions : List Session := []
deriving DecidableEq, Repr

/-- Source lines 616-620: attach `_cpu` to each fetched session from the
previous-sample cache entry with the same key. -/
def attachCpu (prevSessions : List Session) (elapsedMs : ℚ) (sessions : List Session) :
    List Session :=
  sessions.map fun s =>
    let prev := prevSessions.find? (fun ps => ps.key == s.key)
    { s with cpu := some (calculateCpuUsage (some s) prev elapsedMs) }

/-- One active tick of the main loop (source lines 599-626): fetch result in
hand, derive the metric, sort and truncate, replace the previous-sample
cache, render, and — only if render returned — increment the iteration
counter. A render exception leaves the already-updated cache and counter
behind and aborts the tick. -/
def activeTick (st : LoopState) (fetchResult : Except String (List Session))
    (elapsedMs : ℚ) : LoopState × Except JsError Frame :=
  let fetched := match fetchResult with | .ok s => s | .error _ => []
  let error : Option String := match fetchResult with | .ok _ => none | .error e => some e
  let sessions := attachCpu st.prevSessions elapsedMs fetched
  let sessions := (sortSessions sessions st.cfg.sortBy st.cfg.reverse).take st.cfg.maxSessions
  let st1 := { st with prevSessions := sessions }
  match render st.ui sessions.length sessions error with
  | .ok f => ({ st1 with iterations := st1.iterations + 1 }, .ok f)
  | .error e => (st1, .error e)

/-- One iteration of the `while` body (source lines 597-633): when neither
paused nor showing help nor awaiting input, a full active tick runs;
otherwise a render-only tick shows the cached sessions with no error and
does not touch the counter or the cache. -/
def loopTick (st : LoopState) (fetchResult : Except String (List Session))
    (elapsedMs : ℚ) : LoopState × Except JsError Frame :=
  if st.ui.paused = false ∧ st.ui.showingHelp = false ∧ st.ui.awaitingInput = none then
    activeTick st fetchResult elapsedMs
  else
    (st, render st.ui st.prevSessions.length st.prevSessions none)

/-- The `while` guard `iterations < CONFIG.iterations` (source line 597),
with `Infinity` as `none`. -/
def loopContinues (st : LoopState) : Bool :=
  match st.cfg.iterations with
  | none => true
  | some bound => st.iterations < bound

/-- Run the main loop over a trace of per-tick fetch results and elapsed
times. A tick's render exception is thrown past the loop (the `try` wraps
only `fetchSessions`), so it aborts the run and is reported to `main`'s
caller. -/
def runTicks (st : LoopState) : List (Except String (List Session) × ℚ) →
    LoopState × Option JsError
  | [] => (st, none)
  | (f, ms) :: rest =>
    if loopContinues st then
      match loopTick st f ms with
      | (st', .ok _) => runTicks st' rest
      | (st', .error e) => (st', some e)
    else (st, none)

/-- Source line 527: entering raw mode at startup — the only `setRawMode`
call in the program. -/
def setupInputEffects : List Effect :=
  [.setRawMode true]

/-- Source line 640: the message printed after the iteration budget is
exhausted; `main` then simply returns. -/
def completionEffects (cfg : Config) : List Effect :=
  [.writeLine ("Completed " ++
    (match cfg.iterations with | none => "Infinity" | some n => toString n) ++
    " iterations.")]

/-- Source lines 643-646: `main().catch` prints the fatal error and exits
with code 1. -/
def fatalEffects (message : String) : List Effect :=
  [.writeLine ("Fatal error: " ++ message), .exit 1]

/-- The message Node attaches to a `ReferenceError`. -/
def jsErrorMessage : JsError → String
  | .referenceError ident => ident ++ " is not defined"

/-- Concrete fixture: the session `A` with 100 tokens of the spec's
failure-resilience scenario. -/
def sessA : Session :=
  { key := "A", displayName := "agent-A", updatedAt := 1000, totalTokens := 100,
    channel := "tg" }

/-- Concrete fixture: a UI state awaiting numeric input for the delay. -/
def uiAwaitDelay : UIState :=
  { awaitingInput := some .delay }

/-- Concrete fixture: the keypress event for the letter `h`. -/
def hKey : KeyEvent :=
  { name := some "h", str := some 'h' }

/-- Concrete fixture: the keypress event for Enter. -/
def enterKey : KeyEvent :=
  { name := some "return" }

/-- Concrete fixture: 25 pairwise distinct sessions for the truncation
scenario. -/
def testSessions25 : List Session :=
  (List.range 25).map fun i =>
    { key := toString i, displayName := "", updatedAt := i, totalTokens := i,
      channel := "", cpu := some ((i : ℚ) / 2) }

/-! ## Helper lemmas about the comparator -/

open List

theorem sortLe_total (f : String) (r : Bool) (a b : Session) :
    sortLe f r a b = true ∨ sortLe f r b a = true := by
  unfold sortLe
  split_ifs <;> cases r <;> simp <;> exact le_total _ _

theorem sortLe_trans (f : String) (r : Bool) {a b c : Session}
    (hab : sortLe f r a b = true) (hbc : sortLe f r b c = true) :
    sortLe f r a c = true := by
  unfold sortLe at hab hbc ⊢
  split_ifs at hab hbc ⊢ <;> cases r <;> simp_all <;>
    first
    | exact le_trans hab hbc
    | exact le_trans hbc hab

theorem sortLe_of_valEq (f : String) (r : Bool) {a₀ x y : Session}
    (hx : sortValEq f a₀ x = true) (hy : sortValEq f a₀ y = true) :
    sortLe f r x y = true := by
  unfold sortValEq at hx hy
  unfold sortLe
  split_ifs at hx hy ⊢ <;> cases r <;> simp_all

theorem attachCpu_map_key (prev : List Session) (ms : ℚ) (l : List Session) :
    (attachCpu prev ms l).map Session.key = l.map Session.key := by
  simp [attachCpu]

/-- C4: `calculateCpuUsage` follows the stated policy: `0` without a previous
sample, under 500 ms elapsed, or on a flat/decreasing counter; otherwise the
clamped per-second delta, which is positive; and the result always lies in
`[0, 100]`. -/
theorem derive_policy (s p : Option Session) (e : ℚ) :
    (0 ≤ calculateCpuUsage s p e ∧ calculateCpuUsage s p e ≤ 100) ∧
    (p = none → calculateCpuUsage s p e = 0) ∧
    (e < 500 → calculateCpuUsage s p e = 0) ∧
    (∀ sv pv, s = some sv → p = some pv → sv.totalTokens ≤ pv.totalTokens →
      calculateCpuUsage s p e = 0) ∧
    (∀ sv pv, s = some sv → p = some pv → 500 ≤ e →
      pv.totalTokens < sv.totalTokens →
      calculateCpuUsage s p e =
        max 0 (min 100 (((sv.totalTokens : ℚ) - (pv.totalTokens : ℚ)) / (e / 1000))) ∧
      0 < calculateCpuUsage s p e) := by
  refine ⟨?_, ?_, ?_, ?_, ?_⟩
  · unfold calculateCpuUsage
    match s, p with
    | none, _ => simp
    | some sv, none => simp
    | some sv, some pv =>
      simp only
      split_ifs with h1 h2
      · simp
      · simp
      · have he : (0 : ℚ) < e := by linarith [not_lt.mp h1]
        have hd : (0 : ℚ) < (sv.totalTokens : ℚ) - (pv.totalTokens : ℚ) := by
          simpa using not_le.mp h2
        constructor
        · exact le_min (by norm_num) (div_nonneg hd.le (by positivity))
        · exact min_le_left _ _
  · intro hp
    subst hp
    unfold calculateCpuUsage
    match s with
    | none => simp
    | some sv => simp
  · intro he
    unfold calculateCpuUsage
    match s, p with
    | none, _ => simp
    | some sv, none => simp
    | some sv, some pv => simp [he]
  · intro sv pv hs hp hle
    subst hs; subst hp
    unfold calculateCpuUsage
    simp only
    split_ifs with h1 h2
    · rfl
    · rfl
    · exfalso
      apply h2
      have : (sv.totalTokens : ℚ) ≤ (pv.totalTokens : ℚ) := by exact_mod_cast hle
      linarith
  · intro sv pv hs hp hge hlt
    subst hs; subst hp
    have he : (0 : ℚ) < e := by linarith
    have hd : (0 : ℚ) < (sv.totalTokens : ℚ) - (pv.totalTokens : ℚ) := by
      have : (pv.totalTokens : ℚ) < (sv.totalTokens : ℚ) := by exact_mod_cast hlt
      linarith
    have hpos : (0 : ℚ) < min 100 (((sv.totalTokens : ℚ) - (pv.totalTokens : ℚ)) / (e / 1000)) :=
      lt_min (by norm_num) (div_pos hd (by positivity))
    unfold calculateCpuUsage
    simp only
    rw [if_neg (not_lt.mpr hge), if_neg (not_le.mpr hd)]
    exact ⟨(max_eq_right hpos.le).symm, hpos⟩

/-- Witness for `derive_policy` at a concrete increasing counter. -/
theorem derive_policy_witness :
    0 < calculateCpuUsage (some sessA) (some { sessA with totalTokens := 50 }) 2000 ∧
    calculateCpuUsage (some sessA) (some { sessA with totalTokens := 50 }) 2000 ≤ 100 :=
  ⟨((derive_policy (some sessA) (some { sessA with totalTokens := 50 }) 2000).2.2.2.2
      sessA { sessA with totalTokens := 50 } rfl rfl (by norm_num) (by decide)).2,
    (derive_policy (some sessA) (some { sessA with totalTokens := 50 }) 2000).1.2⟩

/-- C6: `sortSessions` is stable — for any tie class of the current sort
field, the sorted output lists its members in exactly the input order. -/
theorem rank_stable (l : List Session) (f : String) (r : Bool) (a₀ : Session) :
    (sortSessions l f r).filter (fun b => sortValEq f a₀ b) =
      l.filter (fun b => sortValEq f a₀ b) := by
  have hpair : (l.filter (fun b => sortValEq f a₀ b)).Pairwise
      (fun a b : Session => sortLe f r a b = true) := by
    apply List.pairwise_of_forall_mem_list
    intro x hx y hy
    exact sortLe_of_valEq f r (List.of_mem_filter hx) (List.of_mem_filter hy)
  have hsub : l.filter (fun b => sortValEq f a₀ b) <+ sortSessions l f r :=
    List.sublist_insertionSort hpair (List.filter_sublist l)
  have hself : (l.filter (fun b => sortValEq f a₀ b)).filter (fun b => sortValEq f a₀ b)
      = l.filter (fun b => sortValEq f a₀ b) :=
    List.filter_eq_self.mpr fun a ha => List.of_mem_filter ha
  have hsub2 : l.filter (fun b => sortValEq f a₀ b) <+
      (sortSessions l f r).filter (fun b => sortValEq f a₀ b) := by
    have h := hsub.filter (fun b => sortValEq f a₀ b)
    rwa [hself] at h
  have hperm : (sortSessions l f r).filter (fun b => sortValEq f a₀ b) ~
      l.filter (fun b => sortValEq f a₀ b) :=
    (List.perm_insertionSort _ l).filter _
  exact (hsub2.eq_of_length hperm.length_eq.symm).symm

/-- C5: the main loop truncates after ranking (source line 622): on a
25-entity list the kept rows are the first 20 of the stable sort, the 5
dropped rows are the sort's last 5 — each ranked no higher than every kept
row — and kept plus dropped is a permutation of the input, so arrival order
plays no part. -/
theorem truncate_after_sort (l : List Session) (f : String) (r : Bool)
    (h : l.length = 25) :
    ({} : Config).maxSessions = 20 ∧
    ((sortSessions l f r).take 20).length = 20 ∧
    ((sortSessions l f r).drop 20).length = 5 ∧
    ((sortSessions l f r).take 20 ++ (sortSessions l f r).drop 20) ~ l ∧
    ∀ x ∈ (sortSessions l f r).take 20, ∀ y ∈ (sortSessions l f r).drop 20,
      sortLe f r x y = true := by
  have hperm : sortSessions l f r ~ l := List.perm_insertionSort _ l
  have hlen : (sortSessions l f r).length = 25 := hperm.length_eq.trans h
  haveI htot : IsTotal Session (fun a b : Session => sortLe f r a b = true) :=
    ⟨fun a b => sortLe_total f r a b⟩
  haveI htr : IsTrans Session (fun a b : Session => sortLe f r a b = true) :=
    ⟨fun _ _ _ hab hbc => sortLe_trans f r hab hbc⟩
  have hsorted : (sortSessions l f r).Pairwise (fun a b : Session => sortLe f r a b = true) :=
    List.sorted_insertionSort _ l
  have hsplit : (sortSessions l f r).take 20 ++ (sortSessions l f r).drop 20
      = sortSessions l f r := List.take_append_drop 20 _
  refine ⟨rfl, ?_, ?_, ?_, ?_⟩
  · simp [List.length_take, hlen]
  · simp [List.length_drop, hlen]
  · rw [hsplit]; exact hperm
  · have h' := hsorted
    rw [← hsplit] at h'
    exact (List.pairwise_append.mp h').2.2

/-- Witness for `truncate_after_sort` on 25 concrete sessions. -/
theorem truncate_after_sort_witness :
    ((sortSessions testSessions25 "cpu" false).take 20).length = 20 ∧
    ((sortSessions testSessions25 "cpu" false).drop 20).length = 5 :=
  ⟨(truncate_after_sort testSessions25 "cpu" false (by decide)).2.1,
    (truncate_after_sort testSessions25 "cpu" false (by decide)).2.2.1⟩

/-- C7: pressing Enter while awaiting input returns to `Normal` with the
buffer cleared and no effect surfaced; the delay is updated to the buffer's
value exactly when that value is an integer in `[1, 3600]`, the iteration
bound exactly when the buffer parses at all (`0` becoming unbounded), and an
invalid entry leaves the prior setting intact. -/
theorem enter_validation (cfg : Config) (ui : UIState) (t : InputTarget)
    (hA : ui.awaitingInput = some t) (hH : ui.showingHelp = false) :
    (handleKeypress cfg ui enterKey).2.1.awaitingInput = none ∧
    (handleKeypress cfg ui enterKey).2.1.inputBuffer = "" ∧
    (handleKeypress cfg ui enterKey).2.1.paused = ui.paused ∧
    (handleKeypress cfg ui enterKey).2.1.showingHelp = false ∧
    (handleKeypress cfg ui enterKey).2.2 = [] ∧
    (t = .delay → parseIntJS ui.inputBuffer = none →
      (handleKeypress cfg ui enterKey).1 = cfg) ∧
    (∀ v, t = .delay → parseIntJS ui.inputBuffer = some v →
      ((1 ≤ v ∧ v ≤ 3600) → (handleKeypress cfg ui enterKey).1 = { cfg with delay := v }) ∧
      (¬(1 ≤ v ∧ v ≤ 3600) → (handleKeypress cfg ui enterKey).1 = cfg)) ∧
    (t = .iterations → parseIntJS ui.inputBuffer = none →
      (handleKeypress cfg ui enterKey).1 = cfg) ∧
    (∀ v, t = .iterations → parseIntJS ui.inputBuffer = some v →
      (handleKeypress cfg ui enterKey).1 =
        { cfg with iterations := if v = 0 then none else some v }) := by
  have hred : handleKeypress cfg ui enterKey =
      ((match t with
        | .delay =>
          match parseIntJS ui.inputBuffer with
          | some newDelay =>
            if 0 < newDelay ∧ newDelay ≤ 3600 then { cfg with delay := newDelay } else cfg
          | none => cfg
        | .iterations =>
          match parseIntJS ui.inputBuffer with
          | some newIter =>
            { cfg with iterations := if newIter = 0 then none else some newIter }
          | none => cfg),
       { ui with awaitingInput := none, inputBuffer := "" }, []) := by
    simp only [handleKeypress, enterKey, hA, hH]
    norm_num
    cases t <;> rfl
  rw [hred]
  refine ⟨rfl, rfl, rfl, hH, rfl, ?_, ?_, ?_, ?_⟩
  · rintro rfl hp
    simp [hp]
  · rintro v rfl hp
    simp only [hp]
    constructor
    · rintro ⟨h1, h2⟩
      rw [if_pos (show 0 < v ∧ v ≤ 3600 from ⟨h1, h2⟩)]
    · intro hnot
      rw [if_neg (show ¬(0 < v ∧ v ≤ 3600) by omega)]
  · rintro rfl hp
    simp [hp]
  · rintro v rfl hp
    simp [hp]

/-- Witness for `enter_validation`: buffer `"9999"` leaves the delay at its
prior value 2; buffer `"10"` sets it to 10. -/
theorem enter_validation_witness :
    (handleKeypress {} { uiAwaitDelay with inputBuffer := "9999" } enterKey).1 = {} ∧
    (handleKeypress {} { uiAwaitDelay with inputBuffer := "10" } enterKey).1 =
      { ({} : Config) with delay := 10 } :=
  ⟨((enter_validation {} { uiAwaitDelay with inputBuffer := "9999" } .delay rfl rfl).2.2.2.2.2.2.1
      9999 rfl (by decide)).2 (by decide),
    ((enter_validation {} { uiAwaitDelay with inputBuffer := "10" } .delay rfl rfl).2.2.2.2.2.2.1
      10 rfl (by decide)).1 (by decide)⟩

/-- C8 counterexample: in `AwaitingInput(delay, "")` pressing `h` does NOT
toggle the Help overlay — the handler's help branch is guarded by
`!awaitingInput` (source line 531) and `h` is not a digit, so the state is
returned unchanged: Help stays hidden (`false`) where a toggle would have
shown it (`!showingHelp = true`). -/
theorem help_toggle_counterexample :
    uiAwaitDelay.awaitingInput = some .delay ∧
    handleKeypress {} uiAwaitDelay hKey = ({}, uiAwaitDelay, []) ∧
    (handleKeypress {} uiAwaitDelay hKey).2.1.showingHelp = false ∧
    (!uiAwaitDelay.showingHelp) = true := by
  exact ⟨rfl, rfl, rfl, rfl⟩

/-- C8 amended: `h` toggles the Help overlay in `Normal` and `Help` (that
is, whenever no input is awaited), returning to the prior state when Help is
shown; while `AwaitingInput` the `h` key is ignored and the state is
unchanged. -/
theorem help_toggle_amended (cfg : Config) (ui : UIState) :
    (ui.awaitingInput = none →
      handleKeypress cfg ui hKey = (cfg, { ui with showingHelp := !ui.showingHelp }, [])) ∧
    (∀ t, ui.awaitingInput = some t → ui.showingHelp = false →
      handleKeypress cfg ui hKey = (cfg, ui, [])) := by
  constructor
  · intro hn
    simp [handleKeypress, hKey, hn]
  · intro t hA hH
    simp [handleKeypress, hKey, hA, hH]

/-- Witness for `help_toggle_amended`: with Help shown (and no input
awaited), `h` returns to the prior `Normal` state. -/
theorem help_toggle_amended_witness :
    handleKeypress {} { showingHelp := true } hKey = ({}, { showingHelp := false }, []) :=
  (help_toggle_amended {} { showingHelp := true }).1 rfl

/-- C3: a tick whose poll fails does not increment the iteration counter
(the error render throws before line 626 is reached), while a tick whose
poll succeeds — under the loop guard of line 599 — completes the
sample-derive-rank-render cycle and increments it by one. -/
theorem failed_tick_counter (st : LoopState) (e : String) (fetched : List Session) (ms : ℚ)
    (hp : st.ui.paused = false) (hh : st.ui.showingHelp = false)
    (ha : st.ui.awaitingInput = none) :
    (loopTick st (.error e) ms).1.iterations = st.iterations ∧
    (loopTick st (.ok fetched) ms).1.iterations = st.iterations + 1 := by
  have hs : ¬("config" ∈ renderScope) := by decide
  constructor
  · simp [loopTick, activeTick, render, hp, hh, ha, hs]
  · simp [loopTick, activeTick, render, hp, hh, ha, hs]

/-- Witness for `failed_tick_counter` on the default start state. -/
theorem failed_tick_counter_witness :
    (loopTick {} (.error "Request timeout") 2000).1.iterations = 0 ∧
    (loopTick {} (.ok [sessA]) 2000).1.iterations = 1 :=
  failed_tick_counter {} "Request timeout" [sessA] 2000 rfl rfl rfl

/-- C2: `render`'s error branch needs the identifier `config`, which is not
in its scope (it is `main`'s local, line 518), so any error render raises
`ReferenceError`; the exception is thrown outside the loop's `try` (which
wraps only `fetchSessions`), so the run aborts on the first failed poll and
`main().catch` exits the process with code 1. -/
theorem render_error_reference_crash :
    ("config" ∉ renderScope) ∧
    (∀ (ui : UIState) (n : Nat) (ss : List Session) (msg : String),
      ui.showingHelp = false → ui.awaitingInput = none →
      render ui n ss (some msg) = .error (.referenceError "config")) ∧
    (∀ (st : LoopState) (e : String) (ms : ℚ)
      (rest : List (Except String (List Session) × ℚ)),
      st.ui.paused = false → st.ui.showingHelp = false → st.ui.awaitingInput = none →
      loopContinues st = true →
      runTicks st ((.error e, ms) :: rest) =
        ((activeTick st (.error e) ms).1, some (.referenceError "config"))) ∧
    (∀ err : JsError, Effect.exit 1 ∈ fatalEffects (jsErrorMessage err)) := by
  have hrender : ∀ (ui : UIState) (n : Nat) (ss : List Session) (msg : String),
      ui.showingHelp = false → ui.awaitingInput = none →
      render ui n ss (some msg) = .error (.referenceError "config") := by
    intro ui n ss msg hh ha
    simp [render, hh, ha, renderScope]
  refine ⟨by decide, hrender, ?_, ?_⟩
  · intro st e ms rest hp hh ha hc
    have hs : ¬("config" ∈ renderScope) := by decide
    have hactive : activeTick st (.error e) ms =
        ((activeTick st (.error e) ms).1, .error (.referenceError "config")) := by
      refine Prod.ext rfl ?_
      simp [activeTick, render, hh, ha, hs]
    have hloop : loopTick st (.error e) ms =
        ((activeTick st (.error e) ms).1, .error (.referenceError "config")) := by
      rw [show loopTick st (.error e) ms = activeTick st (.error e) ms by
        simp [loopTick, hp, hh, ha]]
      exact hactive
    simp [runTicks, hc, hloop]
  · intro err
    simp [fatalEffects]

/-- Witness for `render_error_reference_crash`: a run whose very first poll
fails aborts with the `config` reference error. -/
theorem render_error_reference_crash_witness :
    (runTicks {} [(.error "Request timeout", 2000)]).2 = some (.referenceError "config") := by
  rw [render_error_reference_crash.2.2.1 {} "Request timeout" 2000 [] rfl rfl rfl rfl]

/-- C1, evaluated at the spec's failure-resilience scenario: after a
successful first poll of `{A: 100 tokens}` the cache holds `A`; a failing
second poll then *replaces the cache with the empty truncated list* (line
623 runs on the empty fetched list) and the error render *raises* the
`config` reference error instead of producing a frame — the claimed
stale-data frame and preserved cache do not happen. -/
theorem poll_failure_scenario :
    (activeTick {} (.ok [sessA]) 2000).1.prevSessions = [{ sessA with cpu := some 0 }] ∧
    (activeTick (activeTick {} (.ok [sessA]) 2000).1 (.error "Request timeout") 2000).1.prevSessions
      = [] ∧
    (activeTick (activeTick {} (.ok [sessA]) 2000).1 (.error "Request timeout") 2000).2
      = .error (.referenceError "config") ∧
    (activeTick (activeTick {} (.ok [sessA]) 2000).1 (.error "Request timeout") 2000).1.iterations
      = (activeTick {} (.ok [sessA]) 2000).1.iterations := by
  exact ⟨by decide, by decide, rfl, by decide⟩

/-- C9: no code path emits `setRawMode false` — the keypress handler (whose
`q`/Ctrl-C branch exits directly), the startup (which only enables raw
mode), the iteration-budget completion message, and the fatal-error `catch`
all leave raw mode enabled; quitting with `q` exits with code 0 right after
printing the farewell. -/
theorem raw_mode_never_restored :
    (∀ (cfg : Config) (ui : UIState) (k : KeyEvent),
      (handleKeypress cfg ui k).2.2.contains (Effect.setRawMode false) = false) ∧
    setupInputEffects.contains (Effect.setRawMode false) = false ∧
    (∀ cfg : Config, (completionEffects cfg).contains (Effect.setRawMode false) = false) ∧
    (∀ msg : String, (fatalEffects msg).contains (Effect.setRawMode false) = false) ∧
    (handleKeypress {} {} { name := some "q" }).2.2 =
      [Effect.writeLine "Goodbye!", Effect.exit 0] := by
  refine ⟨?_, by decide, ?_, ?_, by decide⟩
  · intro cfg ui k
    unfold handleKeypress
    repeat' split
    all_goals simp [List.contains, setupInputEffects]
  · intro cfg
    simp [completionEffects, List.contains]
  · intro msg
    simp [fatalEffects, List.contains]

/-- C10: a successful tick stores exactly the sorted-and-truncated rendered
rows (at most `maxSessions = 20` of them) as the new previous-sample cache,
so a session ranked below the cap — i.e. in the dropped tail of the sort —
has no cache entry under its key on the next tick and its derived score is
then 0. -/
theorem cache_truncation (st : LoopState) (fetched : List Session) (ms : ℚ)
    (hh : st.ui.showingHelp = false) (ha : st.ui.awaitingInput = none)
    (hkeys : (fetched.map Session.key).Nodup) :
    (activeTick st (.ok fetched) ms).1.prevSessions =
      (sortSessions (attachCpu st.prevSessions ms fetched) st.cfg.sortBy st.cfg.reverse).take
        st.cfg.maxSessions ∧
    (activeTick st (.ok fetched) ms).1.prevSessions.length ≤ st.cfg.maxSessions ∧
    (activeTick st (.ok fetched) ms).2 = .ok (.table st.ui.paused
      (activeTick st (.ok fetched) ms).1.prevSessions.length
      (activeTick st (.ok fetched) ms).1.prevSessions) ∧
    ∀ s ∈ (sortSessions (attachCpu st.prevSessions ms fetched) st.cfg.sortBy st.cfg.reverse).drop
        st.cfg.maxSessions,
      ∀ t : Session, t.key = s.key → ∀ e : ℚ,
        calculateCpuUsage (some t)
          ((activeTick st (.ok fetched) ms).1.prevSessions.find? (fun ps => ps.key == t.key)) e
          = 0 := by
  have hA : (activeTick st (.ok fetched) ms).1.prevSessions =
      (sortSessions (attachCpu st.prevSessions ms fetched) st.cfg.sortBy st.cfg.reverse).take
        st.cfg.maxSessions := by
    simp [activeTick, render, hh, ha]
  have hC : (activeTick st (.ok fetched) ms).2 = .ok (.table st.ui.paused
      (activeTick st (.ok fetched) ms).1.prevSessions.length
      (activeTick st (.ok fetched) ms).1.prevSessions) := by
    simp [activeTick, render, hh, ha]
  refine ⟨hA, ?_, hC, ?_⟩
  · rw [hA]
    exact List.length_take_le _ _
  · intro s hs t ht e
    have hperm : sortSessions (attachCpu st.prevSessions ms fetched) st.cfg.sortBy st.cfg.reverse
        ~ attachCpu st.prevSessions ms fetched := List.perm_insertionSort _ _
    have hnodup : ((sortSessions (attachCpu st.prevSessions ms fetched) st.cfg.sortBy
        st.cfg.reverse).map Session.key).Nodup := by
      rw [(hperm.map Session.key).nodup_iff, attachCpu_map_key]
      exact hkeys
    have hsplit := List.take_append_drop st.cfg.maxSessions
      (sortSessions (attachCpu st.prevSessions ms fetched) st.cfg.sortBy st.cfg.reverse)
    rw [← hsplit, List.map_append, List.nodup_append] at hnodup
    have hdisj := hnodup.2.2
    have hfind : ((sortSessions (attachCpu st.prevSessions ms fetched) st.cfg.sortBy
        st.cfg.reverse).take st.cfg.maxSessions).find? (fun ps => ps.key == t.key) = none := by
      rw [List.find?_eq_none]
      intro x hx hbeq
      have hxkey : x.key = t.key := by simpa using hbeq
      have hmem : t.key ∈ ((sortSessions (attachCpu st.prevSessions ms fetched) st.cfg.sortBy
          st.cfg.reverse).drop st.cfg.maxSessions).map Session.key := by
        rw [ht]
        exact List.mem_map_of_mem Session.key hs
      have hxmem : x.key ∈ ((sortSessions (attachCpu st.prevSessions ms fetched) st.cfg.sortBy
          st.cfg.reverse).take st.cfg.maxSessions).map Session.key :=
        List.mem_map_of_mem Session.key hx
      rw [hxkey] at hxmem
      exact hdisj hxmem hmem
    rw [hA, hfind]
    rfl

/-- Witness for `cache_truncation` on two concrete distinct-key sessions. -/
theorem cache_truncation_witness :
    (activeTick {} (.ok [sessA, { sessA with key := "B" }]) 2000).1.prevSessions.length ≤
      ({} : LoopState).cfg.maxSessions :=
  (cache_truncation {} [sessA, { sessA with key := "B" }] 2000 rfl rfl (by decide)).2.1
